import Mathlib

/-!
Verification of the odebug debug-log writer (src/src/lib.rs).

The development shallowly embeds the crate's core:

* directory resolution (`determine_debug_dir`, `find_target_dir`,
  `find_workspace_root`, `default_debug_dir`, the lazily-initialized
  `DEBUG_DIR` global);
* the truncate-once registry (`INITIALIZED_FILES`, modelled by
  `should_clear_step`);
* the write entry point `write_to_debug_file` with its buffered writer and
  four formatting branches;
* a small interleaving model of two concurrent `write_to_debug_file` calls,
  at the granularity of the atomic steps the code actually performs.

Filesystem paths are lists of components (the empty list is the filesystem
root); the filesystem itself is a map from paths to optional file contents.
Cargo feature flags (`output_to_target`, `use_workspace`) become booleans,
and the process environment (the `CARGO_TARGET_DIR` variable, the current
working directory, the contents of each `Cargo.toml` on disk) becomes an
explicit `Env` record.
-/

/-- A filesystem path as a list of components; `[]` is the filesystem root. -/
abbrev FsPath := List String

/-- An I/O error value, kept opaque: only its identity matters for
propagation claims. -/
abbrev IOErr := String

/-- The fixed separator line from src/src/lib.rs line 95. -/
def SEPARATOR_LINE : String := "-----------------------------------------------------------"

/-- The marker that makes a `Cargo.toml` a workspace root
(src/src/lib.rs line 82). -/
def workspaceMarker : String := "[workspace]"

/-- Rust `str::contains`: `sub` occurs as a contiguous substring of `s`. -/
def containsSubstring (s sub : String) : Bool :=
  (List.range (s.length + 1)).any fun i => List.isPrefixOf sub.data (s.data.drop i)

/-- The two cargo feature flags that configure directory resolution. -/
structure Flags where
  output_to_target : Bool
  use_workspace : Bool
deriving DecidableEq

/-- The process environment visible to the resolver: the value of
`CARGO_TARGET_DIR` (as a path, `none` when unset or unreadable), the current
working directory (`none` when `std::env::current_dir()` fails), and the
readable content of the `Cargo.toml` manifest at each path (`none` when the
file is absent or unreadable). -/
structure Env where
  cargoTargetDir : Option FsPath
  currentDir : Option FsPath
  manifests : FsPath → Option String

/-- The body of the workspace-root loop test (src/src/lib.rs lines 79-85):
the directory's `Cargo.toml` exists, is readable, and contains the
workspace marker. -/
def checkDir (env : Env) (dir : FsPath) : Bool :=
  match env.manifests (dir ++ ["Cargo.toml"]) with
  | some content => containsSubstring content workspaceMarker
  | none => false

/-- The upward walk of `find_workspace_root` (src/src/lib.rs lines 78-90):
test the directory, then pop one component; `PathBuf::pop` fails exactly at
the root, after which the loop breaks with `None`. -/
def walkUp (env : Env) : FsPath → Option FsPath
  | [] => if checkDir env [] then some [] else none
  | a :: as =>
    if checkDir env (a :: as) then some (a :: as)
    else walkUp env (a :: as).dropLast
termination_by p => p.length
decreasing_by simp [List.length_dropLast]

/-- `find_workspace_root` (src/src/lib.rs lines 76-92): start from the
current working directory (propagating its failure as `None`) and walk up. -/
def find_workspace_root (env : Env) : Option FsPath :=
  match env.currentDir with
  | none => none
  | some cwd => walkUp env cwd

/-- The chain of directories visited by the upward walk: the directory
itself, its parent, and so on down to the filesystem root. -/
def ancestors : FsPath → List FsPath
  | [] => [[]]
  | a :: as => (a :: as) :: ancestors (a :: as).dropLast
termination_by p => p.length
decreasing_by simp [List.length_dropLast]

/-- `find_target_dir` (src/src/lib.rs lines 59-73): `CARGO_TARGET_DIR` if
set; else, under the `use_workspace` feature, the workspace root's `target`
subdirectory when a workspace root exists; else the current directory's
`target` subdirectory (`None` when the current directory is unavailable). -/
def find_target_dir (flags : Flags) (env : Env) : Option FsPath :=
  match env.cargoTargetDir with
  | some dir => some dir
  | none =>
    match (if flags.use_workspace then find_workspace_root env else none) with
    | some ws_root => some (ws_root ++ ["target"])
    | none =>
      match env.currentDir with
      | none => none
      | some current => some (current ++ ["target"])

/-- A resolved directory together with the warnings printed to stderr while
resolving it, in order. -/
structure Resolved where
  path : FsPath
  warnings : List String
deriving DecidableEq

/-- `default_debug_dir` (src/src/lib.rs lines 39-56): under `use_workspace`,
`<workspace_root>/.debug` with a stderr warning and `<cwd>/.debug` fallback
when no workspace root is found (a failed `current_dir` defaulting to the
empty path); without the feature, `<cwd>/.debug` directly. -/
def default_debug_dir (flags : Flags) (env : Env) : Resolved :=
  if flags.use_workspace then
    match find_workspace_root env with
    | some root => { path := root ++ [".debug"], warnings := [] }
    | none =>
      { path := (env.currentDir.getD []) ++ [".debug"]
        warnings := ["Warning: Could not find workspace root, falling back to current directory"] }
  else
    { path := (env.currentDir.getD []) ++ [".debug"], warnings := [] }

/-- `determine_debug_dir` (src/src/lib.rs lines 19-36): under
`output_to_target`, the found target directory suffixed with `odebug`, or a
stderr warning followed by the default location; without the feature, the
default location directly. -/
def determine_debug_dir (flags : Flags) (env : Env) : Resolved :=
  if flags.output_to_target then
    match find_target_dir flags env with
    | some dir => { path := dir ++ ["odebug"], warnings := [] }
    | none =>
      let d := default_debug_dir flags env
      { path := d.path
        warnings := "Warning: Could not find target directory, falling back to default location" :: d.warnings }
  else default_debug_dir flags env

/-- The initializer of the `DEBUG_DIR` lazy static (src/src/lib.rs lines
10-16): resolve the directory, attempt to create it (a failure only appends
a stderr message), and yield the path regardless. -/
def initDebugDir (flags : Flags) (env : Env) (createFails : Bool) :
    FsPath × List String :=
  let r := determine_debug_dir flags env
  (r.path, r.warnings ++ (if createFails then ["Failed to create debug directory"] else []))

/-- The cell backing the `DEBUG_DIR` `Lazy` static: `none` before first
access, `some p` after the initializer has run and produced `p`. -/
structure DebugDirCell where
  cache : Option FsPath
deriving DecidableEq

/-- One access to the `DEBUG_DIR` lazy static: return the cached path if the
initializer already ran, otherwise run the initializer against the current
environment and cache its result. -/
def debugDirGet (flags : Flags) (cell : DebugDirCell) (env : Env)
    (createFails : Bool) : FsPath × DebugDirCell :=
  match cell.cache with
  | some p => (p, cell)
  | none =>
    let p := (initDebugDir flags env createFails).1
    (p, { cache := some p })

/-- The locked check-and-insert on `INITIALIZED_FILES` (src/src/lib.rs lines
135-143): if the filename is absent from the set, insert it and report
`true` (truncate); otherwise report `false`. The set is modelled as the
list of its members. -/
def should_clear_step (initialized : List String) (filename : String) :
    Bool × List String :=
  if filename ∈ initialized then (false, initialized)
  else (true, filename :: initialized)

/-- The registry after a sequence of check-and-insert calls starting from
`init`, one call per listed filename, in order. -/
def runRegistryFrom (init : List String) : List String → List String
  | [] => init
  | f :: rest => runRegistryFrom (should_clear_step init f).2 rest

/-- A `BufWriter` over an open file: the bytes already in the file and the
bytes still sitting in the in-memory buffer. -/
structure BufWriter where
  fileContent : String
  buffer : String
deriving DecidableEq

/-- One `writeln!` into the buffered writer: the rendered text goes into
the buffer. -/
def bwWrite (w : BufWriter) (s : String) : BufWriter :=
  { w with buffer := w.buffer ++ s }

/-- `writer.flush()`: the buffered bytes reach the file and the buffer
empties. -/
def bwFlush (w : BufWriter) : BufWriter :=
  { fileContent := w.fileContent ++ w.buffer, buffer := "" }

/-- The four `writeln!` sequences of src/src/lib.rs lines 153-175, one
branch per (header, context) shape; each `writeln!` appends its formatted
text plus a newline. -/
def writeEntry (w : BufWriter) (content : String)
    (header context : Option String) : BufWriter :=
  match header, context with
  | some h, some c =>
    bwWrite (bwWrite (bwWrite (bwWrite w ("\n" ++ SEPARATOR_LINE ++ "\n"))
      ("> " ++ h ++ " (" ++ c ++ ")" ++ "\n")) (SEPARATOR_LINE ++ "\n"))
      (content ++ "\n")
  | some h, none =>
    bwWrite (bwWrite (bwWrite (bwWrite w ("\n" ++ SEPARATOR_LINE ++ "\n"))
      ("> " ++ h ++ "\n")) (SEPARATOR_LINE ++ "\n")) (content ++ "\n")
  | none, some c =>
    bwWrite (bwWrite (bwWrite (bwWrite w ("\n" ++ SEPARATOR_LINE ++ "\n"))
      ("> [at " ++ c ++ "]" ++ "\n")) (SEPARATOR_LINE ++ "\n")) (content ++ "\n")
  | none, none => bwWrite w ("\n" ++ content ++ "\n")

/-- The full text one call appends for a given (content, header, context)
triple: the concatenation of the texts of its `writeln!` calls. -/
def renderEntry (content : String) (header context : Option String) : String :=
  match header, context with
  | some h, some c =>
    "\n" ++ SEPARATOR_LINE ++ "\n" ++ ("> " ++ h ++ " (" ++ c ++ ")" ++ "\n")
      ++ (SEPARATOR_LINE ++ "\n") ++ (content ++ "\n")
  | some h, none =>
    "\n" ++ SEPARATOR_LINE ++ "\n" ++ ("> " ++ h ++ "\n")
      ++ (SEPARATOR_LINE ++ "\n") ++ (content ++ "\n")
  | none, some c =>
    "\n" ++ SEPARATOR_LINE ++ "\n" ++ ("> [at " ++ c ++ "]" ++ "\n")
      ++ (SEPARATOR_LINE ++ "\n") ++ (content ++ "\n")
  | none, none => "\n" ++ content ++ "\n"

/-- The outcome each fallible I/O operation of one `write_to_debug_file`
call would have: whether `create_dir_all` fails, whether `remove_file`
fails, and the error (if any) of the open, of the buffered writes, and of
the final flush. -/
structure IOBehavior where
  createDirFails : Bool
  removeFails : Bool
  openFails : Option IOErr
  writeFails : Option IOErr
  flushFails : Option IOErr
deriving DecidableEq

/-- The all-success I/O outcome. -/
def noFail : IOBehavior :=
  { createDirFails := false, removeFails := false, openFails := none
    writeFails := none, flushFails := none }

/-- The process-wide mutable state `write_to_debug_file` touches: the
`INITIALIZED_FILES` set and the filesystem (content of each file path, or
`none` when absent). -/
structure ProcState where
  initialized : List String
  files : FsPath → Option String

/-- Point update of the filesystem map. -/
def setFile (files : FsPath → Option String) (p : FsPath)
    (v : Option String) : FsPath → Option String :=
  fun q => if q = p then v else files q

/-- `write_to_debug_file` (src/src/lib.rs lines 125-180): ignore the
`create_dir_all` result; compute the path; run the locked check-and-insert;
if it said to clear, attempt `remove_file` discarding any error; open in
create+append mode (propagating failure); buffer the four-branch entry;
flush; propagate the first write or flush error; return `Ok` otherwise. -/
def write_to_debug_file (debugDir : FsPath) (io : IOBehavior)
    (st : ProcState) (filename content : String)
    (header context : Option String) : Except IOErr Unit × ProcState :=
  let path := debugDir ++ [filename]
  let r := should_clear_step st.initialized filename
  let st1 : ProcState := { st with initialized := r.2 }
  let st2 : ProcState :=
    if r.1 then
      if io.removeFails then st1
      else { st1 with files := setFile st1.files path none }
    else st1
  match io.openFails with
  | some e => (Except.error e, st2)
  | none =>
    let existing := (st2.files path).getD ("")
    let st3 : ProcState := { st2 with files := setFile st2.files path (some existing) }
    match io.writeFails with
    | some e => (Except.error e, st3)
    | none =>
      match io.flushFails with
      | some e => (Except.error e, st3)
      | none =>
        let w := bwFlush (writeEntry { fileContent := existing, buffer := "" }
          content header context)
        (Except.ok (), { st3 with files := setFile st3.files path (some w.fileContent) })

/-- The argument triple of one write call. -/
structure LogCall where
  content : String
  header : Option String
  context : Option String

/-- The text a call with these arguments appends. -/
def renderCall (l : LogCall) : String :=
  renderEntry l.content l.header l.context

/-- Concatenation of the rendered entries of a sequence of calls, in call
order. -/
def renderAll : List LogCall → String
  | [] => ""
  | l :: rest => renderCall l ++ renderAll rest

/-- Sequential execution of a list of write calls against one filename. -/
def runWrites (debugDir : FsPath) (io : IOBehavior) (f : String)
    (st : ProcState) : List LogCall → ProcState
  | [] => st
  | l :: rest =>
    runWrites debugDir io f
      (write_to_debug_file debugDir io st f l.content l.header l.context).2 rest

/-- The atomic steps one `write_to_debug_file` call performs on shared
state, in program order (src/src/lib.rs lines 131-177). The registry
check-and-insert is one atomic action because the mutex is held exactly for
that block; the lock is released before `remove_file` runs. -/
inductive WAction where
  | createDir
  | regCheckInsert
  | removeIfClear
  | openAppend
  | writeAndFlush
deriving DecidableEq

/-- Shared state for two concurrent calls against one fixed filename:
whether the filename is already in `INITIALIZED_FILES`, and the file's
content (`none` when absent). -/
structure CState where
  registered : Bool
  file : Option String
deriving DecidableEq

/-- One thread running `write_to_debug_file`: the entry text it will
append, its local `should_clear` decision, and its remaining steps. -/
structure CThread where
  entry : String
  sc : Bool
  prog : List WAction
deriving DecidableEq

/-- The step sequence of one `write_to_debug_file` call. -/
def writeProg : List WAction :=
  [WAction.createDir, WAction.regCheckInsert, WAction.removeIfClear,
   WAction.openAppend, WAction.writeAndFlush]

/-- Execute the thread's next atomic step against the shared state. -/
def stepAction (s : CState) (t : CThread) : CState × CThread :=
  match t.prog with
  | [] => (s, t)
  | a :: rest =>
    let tr : CThread := { t with prog := rest }
    match a with
    | WAction.createDir => (s, tr)
    | WAction.regCheckInsert =>
      if s.registered then (s, { tr with sc := false })
      else ({ s with registered := true }, { tr with sc := true })
    | WAction.removeIfClear =>
      if t.sc then ({ s with file := none }, tr) else (s, tr)
    | WAction.openAppend => ({ s with file := some (s.file.getD ("")) }, tr)
    | WAction.writeAndFlush =>
      ({ s with file := some (s.file.getD ("") ++ t.entry) }, tr)

/-- Run two threads under an explicit schedule: `true` steps thread A,
`false` steps thread B. -/
def runSched (s : CState) (tA tB : CThread) :
    List Bool → CState × CThread × CThread
  | [] => (s, tA, tB)
  | b :: rest =>
    if b then
      let p := stepAction s tA
      runSched p.1 p.2 tB rest
    else
      let p := stepAction s tB
      runSched p.1 tA p.2 rest

theorem setFile_same (files : FsPath → Option String) (p : FsPath)
    (v : Option String) : setFile files p v p = v := by
  simp [setFile]

theorem flush_writeEntry (e c : String) (h x : Option String) :
    bwFlush (writeEntry { fileContent := e, buffer := "" } c h x) =
      { fileContent := e ++ renderEntry c h x, buffer := "" } := by
  cases h <;> cases x <;>
    simp [writeEntry, bwWrite, bwFlush, renderEntry, String.append_assoc,
      String.empty_append]

theorem mem_runRegistryFrom (f : String) :
    ∀ (l init : List String),
      (f ∈ runRegistryFrom init l ↔ f ∈ init ∨ f ∈ l)
  | [], init => by simp [runRegistryFrom]
  | g :: rest, init => by
    by_cases hg : g ∈ init
    · rw [runRegistryFrom, should_clear_step, if_pos hg]
      rw [mem_runRegistryFrom f rest init]
      constructor
      · rintro (h | h)
        · exact Or.inl h
        · exact Or.inr (List.mem_cons_of_mem g h)
      · rintro (h | h)
        · exact Or.inl h
        · rcases List.mem_cons.mp h with h | h
          · exact Or.inl (h ▸ hg)
          · exact Or.inr h
    · rw [runRegistryFrom, should_clear_step, if_neg hg]
      rw [mem_runRegistryFrom f rest (g :: init)]
      simp [List.mem_cons]
      tauto

theorem write_first (dd : FsPath) (st : ProcState) (f c : String)
    (h x : Option String) (hf : f ∉ st.initialized) :
    (write_to_debug_file dd noFail st f c h x).1 = Except.ok () ∧
    (write_to_debug_file dd noFail st f c h x).2.initialized = f :: st.initialized ∧
    (write_to_debug_file dd noFail st f c h x).2.files (dd ++ [f]) =
      some (renderEntry c h x) := by
  simp [write_to_debug_file, should_clear_step, hf, noFail, setFile,
    flush_writeEntry, String.empty_append]

theorem write_append (dd : FsPath) (st : ProcState) (f c : String)
    (h x : Option String) (s : String) (hmem : f ∈ st.initialized)
    (hfile : st.files (dd ++ [f]) = some s) :
    (write_to_debug_file dd noFail st f c h x).1 = Except.ok () ∧
    (write_to_debug_file dd noFail st f c h x).2.initialized = st.initialized ∧
    (write_to_debug_file dd noFail st f c h x).2.files (dd ++ [f]) =
      some (s ++ renderEntry c h x) := by
  simp [write_to_debug_file, should_clear_step, hmem, noFail, setFile,
    flush_writeEntry, hfile]

theorem runWrites_append (dd : FsPath) (f : String) :
    ∀ (calls : List LogCall) (st : ProcState) (s : String),
      f ∈ st.initialized → st.files (dd ++ [f]) = some s →
      (runWrites dd noFail f st calls).files (dd ++ [f]) =
        some (s ++ renderAll calls)
  | [], st, s, hmem, hfile => by
    simp [runWrites, renderAll, hfile, String.append_empty]
  | l :: rest, st, s, hmem, hfile => by
    obtain ⟨hok, hinit, hfiles⟩ :=
      write_append dd st f l.content l.header l.context s hmem hfile
    rw [runWrites]
    have hmem2 : f ∈ (write_to_debug_file dd noFail st f l.content l.header
        l.context).2.initialized := hinit ▸ hmem
    have := runWrites_append dd f rest
      (write_to_debug_file dd noFail st f l.content l.header l.context).2
      (s ++ renderCall l) hmem2 hfiles
    rw [this, renderAll, String.append_assoc]

theorem walkUp_eq_find_aux (env : Env) :
    ∀ (n : Nat) (p : FsPath), p.length ≤ n →
      walkUp env p = (ancestors p).find? (fun d => checkDir env d)
  | 0, [], _ => by
    rw [walkUp, ancestors]
    by_cases hc : checkDir env []
    · simp [hc]
    · simp [hc]
  | 0, a :: as, h => by simp at h
  | n + 1, [], _ => by
    rw [walkUp, ancestors]
    by_cases hc : checkDir env []
    · simp [hc]
    · simp [hc]
  | n + 1, a :: as, h => by
    rw [walkUp, ancestors]
    by_cases hc : checkDir env (a :: as)
    · simp [hc]
    · simp only [hc, if_false, List.find?]
      rw [walkUp_eq_find_aux env n (a :: as).dropLast
        (by simp [List.length_dropLast] at h ⊢; omega)]
      simp [hc]

theorem walkUp_eq_find (env : Env) (p : FsPath) :
    walkUp env p = (ancestors p).find? (fun d => checkDir env d) :=
  walkUp_eq_find_aux env p.length p (Nat.le_refl _)

/-- C4: for all content, header, and context strings, the rendered entry
follows the four-case table — both present gives blank line, separator,
a "> header (context)" label, separator, content, newline; header only
gives a "> header" label; context only gives a "> [at context]" label;
neither gives exactly a blank line, the content, and a newline — and every
branch begins with a blank line and ends with the content followed by a
line break. -/
theorem formatter_four_cases (content hdr ctx : String) :
    (renderEntry content (some hdr) (some ctx) =
      "\n" ++ SEPARATOR_LINE ++ "\n" ++ "> " ++ hdr ++ " (" ++ ctx ++ ")"
        ++ "\n" ++ SEPARATOR_LINE ++ "\n" ++ content ++ "\n")
  ∧ (renderEntry content (some hdr) none =
      "\n" ++ SEPARATOR_LINE ++ "\n" ++ "> " ++ hdr
        ++ "\n" ++ SEPARATOR_LINE ++ "\n" ++ content ++ "\n")
  ∧ (renderEntry content none (some ctx) =
      "\n" ++ SEPARATOR_LINE ++ "\n" ++ "> [at " ++ ctx ++ "]"
        ++ "\n" ++ SEPARATOR_LINE ++ "\n" ++ content ++ "\n")
  ∧ (renderEntry content none none = "\n" ++ content ++ "\n")
  ∧ (∀ hdr2 ctx2 : Option String, ∃ mid : String,
      renderEntry content hdr2 ctx2 = "\n" ++ (mid ++ (content ++ "\n"))) := by
  refine ⟨by simp only [renderEntry, String.append_assoc],
    by simp only [renderEntry, String.append_assoc],
    by simp only [renderEntry, String.append_assoc], rfl, ?_⟩
  intro hdr2 ctx2
  cases hdr2 with
  | none =>
    cases ctx2 with
    | none =>
      exact ⟨"", by simp only [renderEntry, String.append_assoc, String.empty_append]⟩
    | some c =>
      exact ⟨SEPARATOR_LINE ++ "\n" ++ ("> [at " ++ c ++ "]" ++ "\n")
        ++ (SEPARATOR_LINE ++ "\n"),
        by simp only [renderEntry, String.append_assoc]⟩
  | some h2 =>
    cases ctx2 with
    | none =>
      exact ⟨SEPARATOR_LINE ++ "\n" ++ ("> " ++ h2 ++ "\n")
        ++ (SEPARATOR_LINE ++ "\n"),
        by simp only [renderEntry, String.append_assoc]⟩
    | some c =>
      exact ⟨SEPARATOR_LINE ++ "\n" ++ ("> " ++ h2 ++ " (" ++ c ++ ")" ++ "\n")
        ++ (SEPARATOR_LINE ++ "\n"),
        by simp only [renderEntry, String.append_assoc]⟩

/-- C1: the registry's check-and-insert answers true at most once per
filename — across any sequence of calls from the empty set, a call decides
to truncate exactly when its filename did not occur earlier in the
sequence; check-and-insert inserts its filename and never removes an
entry; and `write_to_debug_file` updates `INITIALIZED_FILES` exactly by
this check-and-insert. -/
theorem registry_truncate_once :
    (∀ (calls : List String) (i : Nat) (h : i < calls.length),
      ((should_clear_step (runRegistryFrom [] (calls.take i)) calls[i]).1 = true
        ↔ calls[i] ∉ calls.take i))
  ∧ (∀ (init : List String) (f g : String),
      g ∈ init → g ∈ (should_clear_step init f).2)
  ∧ (∀ (init : List String) (f : String), f ∈ (should_clear_step init f).2)
  ∧ (∀ (dd : FsPath) (io : IOBehavior) (st : ProcState) (f c : String)
      (hdr ctx : Option String),
      (write_to_debug_file dd io st f c hdr ctx).2.initialized =
        (should_clear_step st.initialized f).2) := by
  refine ⟨?_, ?_, ?_, ?_⟩
  · intro calls i h
    have key : calls[i] ∈ runRegistryFrom [] (calls.take i) ↔
        calls[i] ∈ calls.take i := by
      rw [mem_runRegistryFrom]
      simp
    rw [should_clear_step]
    by_cases hmem : calls[i] ∈ runRegistryFrom [] (calls.take i)
    · rw [if_pos hmem]
      simp [key.mp hmem]
    · rw [if_neg hmem]
      simp only [true_iff]
      exact fun hc => hmem (key.mpr hc)
  · intro init f g hg
    rw [should_clear_step]
    by_cases hf : f ∈ init
    · rw [if_pos hf]
      exact hg
    · rw [if_neg hf]
      exact List.mem_cons_of_mem f hg
  · intro init f
    rw [should_clear_step]
    by_cases hf : f ∈ init
    · rw [if_pos hf]
      exact hf
    · rw [if_neg hf]
      exact List.mem_cons_self f init
  · intro dd io st f c hdr ctx
    rcases io with ⟨cd, rm, op, wr, fl⟩
    rw [write_to_debug_file]
    cases op <;> cases wr <;> cases fl <;> cases rm <;>
      by_cases hsc : (should_clear_step st.initialized f).1 <;>
        simp [hsc]

/-- Concrete run exercising `registry_truncate_once`: in the call sequence
a, b, a the third call is for a filename already seen, so its
check-and-insert answers false, while the first two answer true; the set
grows and keeps every inserted name. -/
theorem registry_truncate_once_witness :
    (2 < (["a", "b", "a"] : List String).length)
  ∧ ((should_clear_step (runRegistryFrom []
      ((["a", "b", "a"] : List String).take 2)) (["a", "b", "a"] : List String)[2]).1 = true
        ↔ (["a", "b", "a"] : List String)[2] ∉ (["a", "b", "a"] : List String).take 2)
  ∧ ("b" ∈ (should_clear_step ["b"] ("a")).2)
  ∧ ("a" ∈ (should_clear_step ["b"] ("a")).2) := by
  refine ⟨by decide, registry_truncate_once.1 (["a", "b", "a"] : List String) 2 (by decide), ?_, ?_⟩
  · exact registry_truncate_once.2.1 ["b"] ("a") ("b") (by decide)
  · exact registry_truncate_once.2.2.1 ["b"] ("a")

/-- C3: in a single-threaded sequence of `write_to_debug_file` calls for
one filename within one process, the first successful write leaves the file
containing exactly its rendered entry (pre-existing on-disk content is
gone), each of the subsequent writes appends its rendered entry after the
previous ones with none lost and none duplicated, and each call flushes its
buffered bytes (the buffer is empty after the flush that precedes the
return). -/
theorem single_thread_write_sequence (dd : FsPath) (st : ProcState)
    (f : String) (l1 : LogCall) (rest : List LogCall)
    (hf : f ∉ st.initialized) :
    ((write_to_debug_file dd noFail st f l1.content l1.header l1.context).1 =
      Except.ok ())
  ∧ ((write_to_debug_file dd noFail st f l1.content l1.header l1.context).2.files
      (dd ++ [f]) = some (renderCall l1))
  ∧ ((runWrites dd noFail f
      (write_to_debug_file dd noFail st f l1.content l1.header l1.context).2
      rest).files (dd ++ [f]) = some (renderCall l1 ++ renderAll rest))
  ∧ (∀ (w : BufWriter) (c : String) (hdr ctx : Option String),
      (bwFlush (writeEntry w c hdr ctx)).buffer = "") := by
  obtain ⟨hok, hinit, hfiles⟩ :=
    write_first dd st f l1.content l1.header l1.context hf
  refine ⟨hok, hfiles, ?_, fun w c hdr ctx => rfl⟩
  refine runWrites_append dd f rest _ (renderCall l1) ?_ hfiles
  rw [hinit]
  exact List.mem_cons_self f st.initialized

/-- Concrete run exercising `single_thread_write_sequence`: one fresh
filename, a first write and one follow-up write; the file ends as the two
rendered entries in order, with the stale pre-existing content gone. -/
theorem single_thread_write_sequence_witness :
    (("a.log" : String) ∉
      ({ initialized := [], files := fun q =>
          if q = ["a.log"] then some ("STALE") else none } : ProcState).initialized)
  ∧ ((runWrites [] noFail ("a.log")
      (write_to_debug_file [] noFail
        { initialized := [], files := fun q =>
            if q = ["a.log"] then some ("STALE") else none }
        "a.log" "X" none none).2
      [{ content := "Y", header := some ("H"), context := none }]).files
      ([] ++ ["a.log"]) =
      some (renderCall { content := "X", header := none, context := none } ++
        renderAll [{ content := "Y", header := some ("H"), context := none }])) := by
  constructor
  · simp
  · exact (single_thread_write_sequence [] _ ("a.log")
      { content := "X", header := none, context := none }
      [{ content := "Y", header := some ("H"), context := none }]
      (by simp)).2.2.1

/-- C5: directory resolution is idempotent and memoized — the first access
to the lazy `DEBUG_DIR` computes the resolved path and caches it, and every
later access within the same process returns the identical cached path and
leaves the cell unchanged, even when the environment or the outcome of
directory creation differs between the two accesses. -/
theorem debug_dir_memoized (flags : Flags) (env1 env2 : Env) (b1 b2 : Bool) :
    ((debugDirGet flags { cache := none } env1 b1).2.cache =
      some (debugDirGet flags { cache := none } env1 b1).1)
  ∧ ((debugDirGet flags (debugDirGet flags { cache := none } env1 b1).2
      env2 b2).1 = (debugDirGet flags { cache := none } env1 b1).1)
  ∧ ((debugDirGet flags (debugDirGet flags { cache := none } env1 b1).2
      env2 b2).2 = (debugDirGet flags { cache := none } env1 b1).2)
  ∧ ((debugDirGet flags { cache := none } env1 b1).1 =
      (determine_debug_dir flags env1).path) := by
  simp [debugDirGet, initDebugDir]

/-- C8: `write_to_debug_file` returns an error exactly when the open, the
buffered write, or the flush fails — the first such failure's error value
is returned unchanged — and the outcome of the ignored `create_dir_all`
step never influences the call at all. -/
theorem write_error_propagation (dd : FsPath) (io : IOBehavior)
    (st : ProcState) (f c : String) (hdr ctx : Option String) (e : IOErr) :
    ((write_to_debug_file dd io st f c hdr ctx).1 = Except.error e ↔
      (io.openFails = some e ∨
       (io.openFails = none ∧ io.writeFails = some e) ∨
       (io.openFails = none ∧ io.writeFails = none ∧ io.flushFails = some e)))
  ∧ ((write_to_debug_file dd io st f c hdr ctx).1 = Except.ok () ↔
      (io.openFails = none ∧ io.writeFails = none ∧ io.flushFails = none))
  ∧ (∀ b : Bool,
      write_to_debug_file dd { io with createDirFails := b } st f c hdr ctx =
        write_to_debug_file dd io st f c hdr ctx) := by
  rcases io with ⟨cd, rm, op, wr, fl⟩
  refine ⟨?_, ?_, fun b => rfl⟩ <;>
    cases op <;> cases wr <;> cases fl <;> simp [write_to_debug_file]

/-- C9: the filename enters `INITIALIZED_FILES` before any file I/O is
attempted, so the registry update survives a failed write — a call whose
open fails still returns that error with the filename registered, and the
check-and-insert of any subsequent call for the filename answers false
(never truncates again), even though no entry was written. -/
theorem registry_insert_before_io (dd : FsPath) (io : IOBehavior)
    (st : ProcState) (f c : String) (hdr ctx : Option String) (e : IOErr)
    (hopen : io.openFails = some e) :
    ((write_to_debug_file dd io st f c hdr ctx).1 = Except.error e)
  ∧ (f ∈ (write_to_debug_file dd io st f c hdr ctx).2.initialized)
  ∧ (should_clear_step (write_to_debug_file dd io st f c hdr ctx).2.initialized f =
      (false, (write_to_debug_file dd io st f c hdr ctx).2.initialized)) := by
  rcases io with ⟨cd, rm, op, wr, fl⟩
  simp only at hopen
  subst hopen
  have hmem : f ∈ (should_clear_step st.initialized f).2 := by
    rw [should_clear_step]
    by_cases hf : f ∈ st.initialized
    · rw [if_pos hf]
      exact hf
    · rw [if_neg hf]
      exact List.mem_cons_self f st.initialized
  have hinit : (write_to_debug_file dd
      { createDirFails := cd, removeFails := rm, openFails := some e,
        writeFails := wr, flushFails := fl } st f c hdr ctx).2.initialized =
      (should_clear_step st.initialized f).2 := by
    rw [write_to_debug_file]
    cases rm <;> by_cases hsc : (should_clear_step st.initialized f).1 <;>
      simp [hsc]
  refine ⟨?_, ?_, ?_⟩
  · rw [write_to_debug_file]
  · rw [hinit]
    exact hmem
  · rw [hinit, should_clear_step, if_pos hmem]

/-- Concrete run exercising `registry_insert_before_io`: a first call whose
open fails registers the filename anyway, and the registry then reports
no further truncation for it. -/
theorem registry_insert_before_io_witness :
    (({ createDirFails := false, removeFails := false,
        openFails := some ("denied"), writeFails := none,
        flushFails := none } : IOBehavior).openFails = some ("denied"))
  ∧ (("a.log" : String) ∈ (write_to_debug_file []
      { createDirFails := false, removeFails := false,
        openFails := some ("denied"), writeFails := none, flushFails := none }
      { initialized := [], files := fun _ => none }
      "a.log" "X" none none).2.initialized) := by
  constructor
  · rfl
  · exact (registry_insert_before_io [] _
      { initialized := [], files := fun _ => none }
      ("a.log") ("X") none none ("denied") rfl).2.1

/-- C10: the truncation step discards every `remove_file` error — when
deletion of the pre-existing file fails (for example a permission error) on
a filename's first write, the call silently proceeds to the append-mode
open, returns success, and leaves the pre-existing content in place beneath
the newly appended entry. -/
theorem remove_error_discarded (dd : FsPath) (st : ProcState) (f c : String)
    (hdr ctx : Option String) (pre : String) (hf : f ∉ st.initialized)
    (hfile : st.files (dd ++ [f]) = some pre) :
    ((write_to_debug_file dd { noFail with removeFails := true }
      st f c hdr ctx).1 = Except.ok ())
  ∧ ((write_to_debug_file dd { noFail with removeFails := true }
      st f c hdr ctx).2.files (dd ++ [f]) =
      some (pre ++ renderEntry c hdr ctx)) := by
  simp [write_to_debug_file, should_clear_step, hf, noFail, setFile,
    flush_writeEntry, hfile]

/-- Concrete run exercising `remove_error_discarded`: with a pre-existing
file and a failing deletion, the first write succeeds and the old content
survives beneath the new entry. -/
theorem remove_error_discarded_witness :
    (("a.log" : String) ∉
      ({ initialized := [], files := fun q =>
          if q = ["a.log"] then some ("OLD") else none } : ProcState).initialized)
  ∧ (({ initialized := [], files := fun q =>
        if q = ["a.log"] then some ("OLD") else none } : ProcState).files
        ([] ++ ["a.log"]) = some ("OLD"))
  ∧ ((write_to_debug_file [] { noFail with removeFails := true }
      { initialized := [], files := fun q =>
          if q = ["a.log"] then some ("OLD") else none }
      "a.log" "X" none none).2.files ([] ++ ["a.log"]) =
      some ("OLD" ++ renderEntry ("X") none none)) := by
  refine ⟨by simp, by simp, ?_⟩
  exact (remove_error_discarded [] _ ("a.log") ("X") none none ("OLD")
    (by simp) (by simp)).2

/-- C2 fails on the code: the registry lock is released before
`fs::remove_file` runs, so another thread can append to the
pre-truncation file between the truncation decision and the truncation.
In this interleaving thread A decides to truncate, thread B then completes
its whole call (its check-and-insert answers false, it opens and appends
its flushed entry to the pre-truncation file), and only then does A's
`remove_file` and append run: the final file holds A's entry alone, so an
append preceded the process's single truncation and B's entry was lost. -/
theorem truncation_decision_race :
    ((runSched { registered := false, file := some ("OLD") }
      { entry := "A", sc := false, prog := writeProg }
      { entry := "B", sc := false, prog := writeProg }
      [true, true, false, false, false, false, false, true, true, true]).1.file
      = some ("A"))
  ∧ ((runSched { registered := false, file := some ("OLD") }
      { entry := "A", sc := false, prog := writeProg }
      { entry := "B", sc := false, prog := writeProg }
      [true, true, false, false, false, false, false, true, true, true]).2.1.prog
      = [])
  ∧ ((runSched { registered := false, file := some ("OLD") }
      { entry := "A", sc := false, prog := writeProg }
      { entry := "B", sc := false, prog := writeProg }
      [true, true, false, false, false, false, false, true, true, true]).2.2.prog
      = []) := by
  refine ⟨?_, rfl, rfl⟩
  rfl

/-- C6: resolution follows the priority order — with the build-output
policy enabled the environment variable wins when set; otherwise, with the
workspace policy also enabled and a workspace root found, the root's
`target` subdirectory is used; otherwise the current directory's `target`
subdirectory; each suffixed with the fixed `odebug` subfolder. The
workspace root is the first directory, walking upward from the current
working directory, whose manifest qualifies, and `none` when the
filesystem root is reached without a match. With neither policy enabled
the result is the current directory's `.debug` subdirectory. -/
theorem resolution_priority_order :
    (∀ (flags : Flags) (env : Env) (d : FsPath),
      flags.output_to_target = true → env.cargoTargetDir = some d →
      (determine_debug_dir flags env).path = d ++ ["odebug"])
  ∧ (∀ (flags : Flags) (env : Env) (w : FsPath),
      flags.output_to_target = true → flags.use_workspace = true →
      env.cargoTargetDir = none → find_workspace_root env = some w →
      (determine_debug_dir flags env).path = w ++ ["target", "odebug"])
  ∧ (∀ (flags : Flags) (env : Env) (cur : FsPath),
      flags.output_to_target = true → env.cargoTargetDir = none →
      (flags.use_workspace = false ∨ find_workspace_root env = none) →
      env.currentDir = some cur →
      (determine_debug_dir flags env).path = cur ++ ["target", "odebug"])
  ∧ (∀ (env : Env) (cur : FsPath), env.currentDir = some cur →
      find_workspace_root env =
        (ancestors cur).find? (fun d => checkDir env d))
  ∧ (∀ (flags : Flags) (env : Env) (cur : FsPath),
      flags.output_to_target = false → flags.use_workspace = false →
      env.currentDir = some cur →
      (determine_debug_dir flags env).path = cur ++ [".debug"]) := by
  refine ⟨?_, ?_, ?_, ?_, ?_⟩
  · intro flags env d ht hvar
    simp [determine_debug_dir, find_target_dir, ht, hvar]
  · intro flags env w ht hw hvar hroot
    simp [determine_debug_dir, find_target_dir, ht, hw, hvar, hroot]
  · intro flags env cur ht hvar hws hcur
    rcases hws with hws | hws
    · simp [determine_debug_dir, find_target_dir, ht, hvar, hws, hcur]
    · cases hu : flags.use_workspace <;>
        simp [determine_debug_dir, find_target_dir, ht, hvar, hws, hcur, hu]
  · intro env cur hcur
    rw [find_workspace_root, hcur]
    exact walkUp_eq_find env cur
  · intro flags env cur ht hw hcur
    simp [determine_debug_dir, default_debug_dir, ht, hw, hcur]

/-- Concrete resolutions exercising `resolution_priority_order`: the
environment variable wins when set; a found workspace root supplies
`target`; with no workspace root the current directory supplies `target`;
with neither policy the current directory's `.debug` is used. -/
theorem resolution_priority_order_witness :
    ((determine_debug_dir { output_to_target := true, use_workspace := false }
      { cargoTargetDir := some ["t"], currentDir := some ["c"],
        manifests := fun _ => none }).path = ["t", "odebug"])
  ∧ ((determine_debug_dir { output_to_target := true, use_workspace := true }
      { cargoTargetDir := none, currentDir := some ["home", "proj"],
        manifests := fun p =>
          if p = ["home", "Cargo.toml"] then some ("x[workspace]y")
          else none }).path = ["home", "target", "odebug"])
  ∧ ((determine_debug_dir { output_to_target := true, use_workspace := true }
      { cargoTargetDir := none, currentDir := some ["c"],
        manifests := fun _ => none }).path = ["c", "target", "odebug"])
  ∧ ((determine_debug_dir { output_to_target := false, use_workspace := false }
      { cargoTargetDir := some ["t"], currentDir := some ["c"],
        manifests := fun _ => none }).path = ["c", ".debug"]) := by
  refine ⟨?_, ?_, ?_, ?_⟩
  · exact resolution_priority_order.1
      { output_to_target := true, use_workspace := false }
      { cargoTargetDir := some ["t"], currentDir := some ["c"],
        manifests := fun _ => none } ["t"] rfl rfl
  · exact resolution_priority_order.2.1
      { output_to_target := true, use_workspace := true }
      { cargoTargetDir := none, currentDir := some ["home", "proj"],
        manifests := fun p =>
          if p = ["home", "Cargo.toml"] then some ("x[workspace]y")
          else none } ["home"] rfl rfl rfl
      (by simp [find_workspace_root, walkUp, checkDir]; decide)
  · exact resolution_priority_order.2.2.1
      { output_to_target := true, use_workspace := true }
      { cargoTargetDir := none, currentDir := some ["c"],
        manifests := fun _ => none } ["c"] rfl rfl
      (Or.inr (by simp [find_workspace_root, walkUp, checkDir])) rfl
  · exact resolution_priority_order.2.2.2.2
      { output_to_target := false, use_workspace := false }
      { cargoTargetDir := some ["t"], currentDir := some ["c"],
        manifests := fun _ => none } ["c"] rfl rfl rfl

/-- C7: resolution is total and never fatal — the resolved path is the same
whether or not directory creation fails (a creation failure only adds a
stderr message), and each failed lookup falls back to a path ultimately
rooted at the current working directory while emitting a stderr warning. -/
theorem resolution_total_never_fatal :
    (∀ (flags : Flags) (env : Env) (b : Bool),
      (initDebugDir flags env b).1 = (determine_debug_dir flags env).path)
  ∧ (∀ (flags : Flags) (env : Env),
      "Failed to create debug directory" ∈ (initDebugDir flags env true).2)
  ∧ (∀ (flags : Flags) (env : Env),
      flags.output_to_target = false → flags.use_workspace = true →
      find_workspace_root env = none →
      ((determine_debug_dir flags env).path =
        (env.currentDir.getD []) ++ [".debug"]) ∧
      ("Warning: Could not find workspace root, falling back to current directory"
        ∈ (determine_debug_dir flags env).warnings))
  ∧ (∀ (flags : Flags) (env : Env),
      flags.output_to_target = true → find_target_dir flags env = none →
      ((determine_debug_dir flags env).path =
        (default_debug_dir flags env).path) ∧
      ("Warning: Could not find target directory, falling back to default location"
        ∈ (determine_debug_dir flags env).warnings)) := by
  refine ⟨?_, ?_, ?_, ?_⟩
  · intro flags env b
    simp [initDebugDir]
  · intro flags env
    simp [initDebugDir]
  · intro flags env ht hw hroot
    constructor <;> simp [determine_debug_dir, default_debug_dir, ht, hw, hroot]
  · intro flags env ht htarget
    constructor <;> simp [determine_debug_dir, ht, htarget]

/-- Concrete resolutions exercising `resolution_total_never_fatal`: with no
manifest anywhere and no current directory, resolution still yields a path,
and the workspace and target fallbacks emit their warnings. -/
theorem resolution_total_never_fatal_witness :
    ((determine_debug_dir { output_to_target := false, use_workspace := true }
      { cargoTargetDir := none, currentDir := none,
        manifests := fun _ => none }).path =
      ((none : Option FsPath).getD []) ++ [".debug"])
  ∧ ("Warning: Could not find workspace root, falling back to current directory"
      ∈ (determine_debug_dir { output_to_target := false, use_workspace := true }
        { cargoTargetDir := none, currentDir := none,
          manifests := fun _ => none }).warnings)
  ∧ ((determine_debug_dir { output_to_target := true, use_workspace := false }
      { cargoTargetDir := none, currentDir := none,
        manifests := fun _ => none }).path =
      (default_debug_dir { output_to_target := true, use_workspace := false }
        { cargoTargetDir := none, currentDir := none,
          manifests := fun _ => none }).path)
  ∧ ("Warning: Could not find target directory, falling back to default location"
      ∈ (determine_debug_dir { output_to_target := true, use_workspace := false }
        { cargoTargetDir := none, currentDir := none,
          manifests := fun _ => none }).warnings)
  ∧ ((initDebugDir { output_to_target := false, use_workspace := false }
      { cargoTargetDir := none, currentDir := none,
        manifests := fun _ => none } true).1 =
      (determine_debug_dir { output_to_target := false, use_workspace := false }
        { cargoTargetDir := none, currentDir := none,
          manifests := fun _ => none }).path)
  ∧ ("Failed to create debug directory"
      ∈ (initDebugDir { output_to_target := false, use_workspace := false }
        { cargoTargetDir := none, currentDir := none,
          manifests := fun _ => none } true).2) := by
  have h1 := resolution_total_never_fatal.2.2.1
    { output_to_target := false, use_workspace := true }
    { cargoTargetDir := none, currentDir := none, manifests := fun _ => none }
    rfl rfl rfl
  have h2 := resolution_total_never_fatal.2.2.2
    { output_to_target := true, use_workspace := false }
    { cargoTargetDir := none, currentDir := none, manifests := fun _ => none }
    rfl rfl
  exact ⟨h1.1, h1.2, h2.1, h2.2,
    resolution_total_never_fatal.1
      { output_to_target := false, use_workspace := false }
      { cargoTargetDir := none, currentDir := none, manifests := fun _ => none }
      true,
    resolution_total_never_fatal.2.1
      { output_to_target := false, use_workspace := false }
      { cargoTargetDir := none, currentDir := none, manifests := fun _ => none }⟩
